import Mathlib

/-!
Verification development for the modelchimp client tracker
(`modelchimp/__init__.py` and `modelchimp/log.py`).

The public `Tracker` operations are shallowly embedded as pure Lean
functions.  Python values that flow through the API are modelled by the
inductive `PyVal`; Python `isinstance` checks, truthiness, and string
concatenation (which raises `TypeError` on non-string right operands)
are modelled faithfully.  Each operation returns the `Effects` it
performs (events put on the event queue, logger warnings/infos, HTTP
requests issued) together with an `Except PyExc` result: `.ok v` is a
normal return of `v` (Python `None` is `PyVal.none`), `.error e` is an
exception propagating into the caller.

External collaborators (the requests library, zlib, cloudpickle/pickle,
the filesystem, matplotlib) are passed in as function parameters, so the
theorems quantify over their behaviour.
-/

/-- Python runtime values as they appear at this API surface. -/
inductive PyVal where
  | none : PyVal
  | bool : Bool → PyVal
  | int : Int → PyVal
  | float : Rat → PyVal
  | str : String → PyVal
  | list : List PyVal → PyVal
  | dict : List (String × PyVal) → PyVal
deriving Repr

/-- Python exceptions that the embedded code can raise. -/
inductive PyExc where
  | typeError
  | runtimeError
  | zlibError
  | attributeError
deriving DecidableEq, Repr

/-- Python `isinstance(v, str)`. -/
def isStr : PyVal → Bool
  | .str _ => true
  | _ => false

/-- Python `isinstance(v, int)`; `bool` is a subclass of `int` in Python. -/
def isInt : PyVal → Bool
  | .int _ => true
  | .bool _ => true
  | _ => false

/-- Python `isinstance(v, float)`. -/
def isFloat : PyVal → Bool
  | .float _ => true
  | _ => false

/-- Python `isinstance(v, (int, float))`. -/
def isNum (v : PyVal) : Bool := isInt v || isFloat v

/-- Python `isinstance(v, dict)`. -/
def isDict : PyVal → Bool
  | .dict _ => true
  | _ => false

/-- Python `v is None`. -/
def isNone : PyVal → Bool
  | .none => true
  | _ => false

/-- Python truthiness (`if v:`). -/
def truthy : PyVal → Bool
  | .none => false
  | .bool b => b
  | .int n => n != 0
  | .float q => q != 0
  | .str s => s ≠ ""
  | .list l => !l.isEmpty
  | .dict l => !l.isEmpty

/-- The string held by a `PyVal.str`; only used under an `isStr` guard. -/
def pyStrGet : PyVal → String
  | .str s => s
  | _ => ""

/-- Python `str(v)` as used by `%s` formatting (never raises). -/
def pyToStr : PyVal → String
  | .none => "None"
  | .bool b => if b then "True" else "False"
  | .int n => toString n
  | .float q => toString q
  | .str s => s
  | .list _ => "[...]"
  | .dict _ => "[dict]"

/-- The `ClientEvent` enumeration from `modelchimp/enum.py` as used by
the tracker. -/
inductive ClientEvent where
  | EXPERIMENT_START
  | EXPERIMENT_END
  | CODE_FILE
  | MODEL_PARAM
  | EVAL_PARAM
  | DURATION_PARAM
  | DATASET_ID
deriving DecidableEq, Repr

/-- One event dict put on `event_queue`: the `type` key, the `value`
key, and the `epoch` key when the source includes one (`some .none`
models an explicit `epoch=None` entry; `none` models an absent key). -/
structure Event where
  type : ClientEvent
  value : PyVal
  epoch : Option PyVal := Option.none
deriving Repr

/-- HTTP method of a rest call. -/
inductive ReqKind where
  | get
  | post
deriving DecidableEq, Repr

/-- One HTTP request issued through the `RestConnection`. -/
structure Request where
  kind : ReqKind
  url : String
deriving DecidableEq, Repr

/-- An HTTP response: status code, text body, raw content bytes. -/
structure Response where
  status : Nat
  text : String := ""
  content : List Nat := []

/-- The observable side effects of one tracker operation: events put on
the event queue, logger warnings, logger infos, HTTP requests issued. -/
structure Effects where
  events : List Event := []
  warnings : List String := []
  infos : List String := []
  requests : List Request := []
deriving Repr

instance : Append Effects :=
  ⟨fun a b => ⟨a.events ++ b.events, a.warnings ++ b.warnings,
               a.infos ++ b.infos, a.requests ++ b.requests⟩⟩

/-- No side effects. -/
def noEff : Effects := {}

/-- Just one `logger.warning` call. -/
def warnEff (m : String) : Effects := { warnings := [m] }

/-- Just one `logger.info` call. -/
def infoEff (m : String) : Effects := { infos := [m] }

/-- Just one event put on the queue. -/
def eventEff (e : Event) : Effects := { events := [e] }

/-- Concatenate a list of effect records in order. -/
def effConcat (l : List Effects) : Effects := l.foldr (· ++ ·) noEff

/-- Normal return of Python `None` with the given effects. -/
def retNone (eff : Effects) : Effects × Except PyExc PyVal := (eff, .ok .none)

/-- `Tracker.add_param`: validates the name, checks `self.tracking`, and
puts a `MODEL_PARAM` event `{param_name: param_value}` on the queue. -/
def add_param (tracking : Bool) (param_name param_value : PyVal) :
    Effects × Except PyExc PyVal :=
  if ¬ isStr param_name then
    retNone (warnEff "param_name should be a string")
  else if pyStrGet param_name = "" then
    retNone (warnEff "param_name cannot be empty")
  else if ¬ tracking then
    retNone noEff
  else
    retNone (eventEff ⟨.MODEL_PARAM, .dict [(pyStrGet param_name, param_value)], Option.none⟩)

/-- The items of a Python dict value; only used under an `isDict` guard. -/
def dictItems : PyVal → List (String × PyVal)
  | .dict l => l
  | _ => []

/-- `Tracker.add_multiple_params`: validates that the argument is a
dict, checks `self.tracking`, then calls `add_param` on every item. -/
def add_multiple_params (tracking : Bool) (params_dict : PyVal) :
    Effects × Except PyExc PyVal :=
  if ¬ isDict params_dict then
    retNone (warnEff "Please provide a dict for multiple parameters")
  else if ¬ tracking then
    retNone noEff
  else
    retNone (effConcat ((dictItems params_dict).map
      (fun kv => (add_param tracking (.str kv.1) kv.2).1)))

/-- `Tracker.add_metric`: validates name, value and epoch, checks
`self.tracking`, and puts an `EVAL_PARAM` event (with an `epoch` entry)
on the queue. -/
def add_metric (tracking : Bool) (metric_name metric_value epoch : PyVal) :
    Effects × Except PyExc PyVal :=
  if ¬ isStr metric_name then
    retNone (warnEff "metric_name should be a string")
  else if pyStrGet metric_name = "" then
    retNone (warnEff "metric_name cannot be empty")
  else if ¬ isNum metric_value then
    retNone (warnEff "metric_value should be a number")
  else if ¬ isNone epoch && ¬ isNum epoch then
    retNone (warnEff "epoch should be a number")
  else if ¬ tracking then
    retNone noEff
  else
    retNone (eventEff ⟨.EVAL_PARAM, .dict [(pyStrGet metric_name, metric_value)], some epoch⟩)

/-- `Tracker.add_duration_at_epoch`: validates tag, seconds and epoch
(which must be present and numeric), checks `self.tracking`, and puts a
`DURATION_PARAM` event on the queue. -/
def add_duration_at_epoch (tracking : Bool) (tag seconds_elapsed epoch : PyVal) :
    Effects × Except PyExc PyVal :=
  if ¬ isStr tag then
    retNone (warnEff "tag should be a string")
  else if pyStrGet tag = "" then
    retNone (warnEff "tag cannot be empty")
  else if ¬ isNum seconds_elapsed then
    retNone (warnEff "seconds_elapsed should be a number")
  else if isNone epoch then
    retNone (warnEff "epoch should be present")
  else if ¬ isNone epoch && ¬ isNum epoch then
    retNone (warnEff "epoch should be a number")
  else if ¬ tracking then
    retNone noEff
  else
    retNone (eventEff ⟨.DURATION_PARAM, .dict [(pyStrGet tag, seconds_elapsed)], some epoch⟩)

/-- `Tracker.add_dataset_id`: validates the id type, checks
`self.tracking`, and puts a `DATASET_ID` event on the queue. -/
def add_dataset_id (tracking : Bool) (id : PyVal) :
    Effects × Except PyExc PyVal :=
  if ¬ (isInt id || isFloat id || isStr id) then
    retNone (warnEff "Dataset id should be a number or string")
  else if ¬ tracking then
    retNone noEff
  else
    retNone (eventEff ⟨.DATASET_ID, id, Option.none⟩)

/-- The serialization collaborators used by the custom-object path:
`cloudpickle.dumps(obj, -1)`, `pickle.loads`, and a zlib
compress/decompress pair indexed by the `wbits` mode (the source uses
`zlib.compressobj(-1, zlib.DEFLATED, 31)` and `zlib.decompress(c, 31)`),
plus `sys.getsizeof`.  They are external libraries, so they are fields
of this structure and the theorems hypothesise their contracts. -/
structure PickleLib where
  dumps : PyVal → List Nat
  loads : List Nat → PyVal
  compress : Int → List Nat → List Nat
  decompress : Int → List Nat → List Nat
  getsizeof : List Nat → Nat

/-- `Tracker.__get_compressed_picke`: cloudpickle the object, record
`sys.getsizeof` of the pickled bytes, and gzip-compress (wbits 31). -/
def get_compressed_picke (L : PickleLib) (obj : PyVal) : List Nat × Nat :=
  let pickled_obj := L.dumps obj
  let filesize := L.getsizeof pickled_obj
  (L.compress 31 pickled_obj, filesize)

/-- The decoding applied by `Tracker.pull_custom_object` to the
downloaded content: `pickle.loads(zlib.decompress(content, 31))`. -/
def pull_decode (L : PickleLib) (content : List Nat) : PyVal :=
  L.loads (L.decompress 31 content)

/-- `Tracker.add_custom_object`: validates the name, requires the rest
connection and tracking, pickles the object, and issues exactly one
POST; a 201 response logs success, anything else logs failure; the call
returns `None` either way. -/
def add_custom_object (tracking rest_set : Bool) (project_id : String)
    (L : PickleLib) (postStatus : Request → Nat) (name obj : PyVal) :
    Effects × Except PyExc PyVal :=
  if ¬ isStr name then
    retNone (warnEff "Custom object name should be a string")
  else if ¬ rest_set then
    retNone (infoEff "Please instantiate the ModelChimp Tracker to store custom objects")
  else if ¬ tracking then
    retNone noEff
  else
    let _compressed := (get_compressed_picke L obj).1
    let req : Request :=
      ⟨.post, "api/experiment-custom-object/create/" ++ project_id ++ "/"⟩
    let eff0 : Effects :=
      { infos := ["Uploading custom object: " ++ pyStrGet name], requests := [req] }
    if postStatus req = 201 then
      retNone (eff0 ++ infoEff (pyStrGet name ++ ": custom object was successfully saved"))
    else
      retNone (eff0 ++ infoEff "Custom object could not be saved.")

/-- Modelled from the spec: `is_uuid4_pattern` lives in the utils module,
which is not part of the sources here; it recognises the canonical
textual pattern of a version-4 UUID (8-4-4-4-12 lowercase hex groups
with version digit `4` and variant digit in `89ab`). -/
def is_uuid4_pattern (s : String) : Bool :=
  let cs := s.toList
  let isHex := fun (c : Char) => c.isDigit || ('a' ≤ c && c ≤ 'f')
  cs.length = 36 &&
  (List.range 36).all (fun i =>
    let c := cs.getD i ' '
    if i = 8 || i = 13 || i = 18 || i = 23 then c = '-'
    else if i = 14 then c = '4'
    else if i = 19 then c = '8' || c = '9' || c = 'a' || c = 'b'
    else isHex c)

/-- `Tracker.pull_params`: NOTE the source builds the URL by `+`-
concatenating `experiment_id` onto a string literal BEFORE the
`isinstance` check, so a non-string id raises `TypeError` right there.
For a string id: tracking off returns `None`; a 400 or 403 response
returns `None`; otherwise `json.loads(request.text)` is returned
(`jloads` is the external JSON decoder, which may itself raise). -/
def pull_params (tracking : Bool) (get : String → Response)
    (jloads : String → Except PyExc PyVal) (experiment_id : PyVal) :
    Effects × Except PyExc PyVal :=
  match experiment_id with
  | .str eid =>
    if ¬ tracking then
      retNone noEff
    else
      let url := "api/experiment-pull-param/?experiment-id=" ++ eid
      let r := get url
      let eff0 : Effects := { requests := [⟨.get, url⟩] }
      if r.status = 400 then
        retNone (eff0 ++ infoEff "Have you provided the correct experiment id?")
      else if r.status = 403 then
        retNone (eff0 ++ infoEff "You do not have permission for this experiment")
      else
        match jloads r.text with
        | .ok v => (eff0, .ok v)
        | .error e => (eff0, .error e)
  | _ => (noEff, .error .typeError)

/-- `Tracker.pull_custom_object`: validates that the id is a string in
UUID4 form and that tracking is on; then issues one GET.  NOTE the
source logs on a 400 status but does NOT return: it falls through and
runs `zlib.decompress(request.content, 31)` then `pickle.loads` on the
response body regardless of the status (`decomp` and `ploads` are the
external zlib/pickle calls, which raise on invalid input). -/
def pull_custom_object (tracking : Bool) (project_id : String)
    (get : String → Response) (decomp : List Nat → Except PyExc (List Nat))
    (ploads : List Nat → Except PyExc PyVal) (id : PyVal) :
    Effects × Except PyExc PyVal :=
  let url := "api/experiment-custom-object/retrieve/" ++ project_id ++
             "/?custom-object-id=" ++ pyToStr id
  if ¬ isStr id then
    retNone (warnEff "Custom object id should be a string")
  else if ¬ is_uuid4_pattern (pyStrGet id) then
    retNone (warnEff "Given custom object id is of wrong pattern. Please, insert the correct id")
  else if ¬ tracking then
    retNone noEff
  else
    let r := get url
    let eff0 : Effects :=
      { infos := ["Downloading custom object with the id: " ++ pyStrGet id],
        requests := [⟨.get, url⟩] }
    let eff1 :=
      if r.status = 400 then
        eff0 ++ infoEff "Unable to retrieve custom object. Is it a valid custom object id?"
      else eff0
    match decomp r.content with
    | .error e => (eff1, .error e)
    | .ok b =>
      match ploads b with
      | .error e => (eff1, .error e)
      | .ok v => (eff1, .ok v)

/-- The metric-dict filtering loop of `Tracker.add_image`: Python
iterates `for k in metric_dict` and executes `del metric_dict[k]` for a
non-numeric value; deleting a key while iterating makes the very next
iterator step raise `RuntimeError`, so the loop completes only when
every value is numeric, and otherwise logs one warning for the first
offender and then raises. -/
def filterMetricDict : List (String × PyVal) → Effects × Except PyExc Unit
  | [] => (noEff, .ok ())
  | (k, v) :: rest =>
    if isNum v then
      filterMetricDict rest
    else
      (warnEff ("Metric - " ++ k ++ " is not a number"), .error .runtimeError)

/-- `Tracker.add_image`: checks that the file exists, validates
`metric_dict` (filtering loop above), `custom_file_name` and `epoch`,
requires the rest connection and tracking, then issues exactly one POST
of the image; a non-201 status logs and the call returns `None`.
`isfile` is the external `os.path.isfile`. -/
def add_image (tracking rest_set : Bool) (project_id : String)
    (isfile : String → Bool) (postStatus : Request → Nat)
    (filepath : String) (metric_dict custom_file_name epoch : PyVal) :
    Effects × Except PyExc PyVal :=
  if ¬ isfile filepath then
    retNone (warnEff ("Image file does not exist at " ++ filepath))
  else if truthy metric_dict && ¬ isDict metric_dict then
    retNone (warnEff ("metric_dict should be a dictionary for file: " ++ filepath))
  else
    let scan := if truthy metric_dict then filterMetricDict (dictItems metric_dict)
                else (noEff, .ok ())
    match scan.2 with
    | .error e => (scan.1, .error e)
    | .ok _ =>
      if truthy custom_file_name && ¬ isStr custom_file_name then
        retNone (scan.1 ++ warnEff ("custom_file_name should be a string for file: " ++ filepath))
      else if truthy epoch && ¬ isInt epoch then
        retNone (scan.1 ++ warnEff ("epoch should be a dictionary for file: " ++ filepath))
      else if ¬ rest_set then
        retNone (scan.1 ++ infoEff "Please instantiate the ModelChimp Tracker to store images")
      else if ¬ tracking then
        retNone scan.1
      else
        let req : Request :=
          ⟨.post, "api/experiment-images/add-image/" ++ project_id ++ "/"⟩
        let eff0 := scan.1 ++
          ({ infos := ["Uploading image: " ++ filepath], requests := [req] } : Effects)
        if postStatus req ≠ 201 then
          retNone (eff0 ++ infoEff ("Image could not be saved: " ++ filepath))
        else
          retNone eff0

/-- A matplotlib pyplot module handle as `add_custom_plot` uses it: all
the call needs is whether `plt.gca().has_data()` holds. -/
structure Plt where
  hasData : Bool

/-- `Tracker.add_custom_plot`: validates the name, requires the rest
connection and tracking; `plt.gca()` on the default `plt=None` raises
`AttributeError`; an empty plot logs a warning and returns; otherwise
the plot file is exported and exactly one POST is issued, with a 201 /
non-201 status logged, and the call returns `None`. -/
def add_custom_plot (tracking rest_set : Bool) (project_id : String)
    (postStatus : Request → Nat) (name : PyVal) (plt : Option Plt) :
    Effects × Except PyExc PyVal :=
  if ¬ isStr name then
    retNone (warnEff "Custom plot name should be a string")
  else if ¬ rest_set then
    retNone (infoEff "Please instantiate the ModelChimp Tracker to store custom plots")
  else if ¬ tracking then
    retNone noEff
  else
    match plt with
    | Option.none => (noEff, .error .attributeError)
    | some p =>
      if p.hasData = false then
        retNone (warnEff "Empty plot")
      else
        let req : Request :=
          ⟨.post, "api/experiment-mat-plot/create/" ++ project_id ++ "/"⟩
        let eff0 : Effects :=
          { infos := ["Uploading custom plot: " ++ pyStrGet name], requests := [req] }
        if postStatus req = 201 then
          retNone (eff0 ++ infoEff (pyStrGet name ++ ": custom plot was successfully saved"))
        else
          retNone (eff0 ++ infoEff "Custom plot could not be saved.")

/-- The key prefixing of `Tracker.add_model_params`: a truthy
`model_name` is prefixed onto each extracted key as
`"%s__%s" % (model_name, k)`; a falsy one leaves the keys unchanged. -/
def prefixKey (model_name : PyVal) (k : String) : String :=
  if truthy model_name then pyStrGet model_name ++ "__" ++ k else k

/-- `Tracker.add_model_params`: validates `model_name`, requires sklearn
to be importable and the model to be a `BaseEstimator`, checks
`self.tracking`, extracts `model.get_params()`, prefixes the keys with a
truthy `model_name`, and hands the resulting dict to
`add_multiple_params`.  `getParams` is the extracted parameter dict of
the supported model object. -/
def add_model_params (tracking sklearnAvail isBase : Bool)
    (getParams : List (String × PyVal)) (model_name : PyVal) :
    Effects × Except PyExc PyVal :=
  if truthy model_name && ! isStr model_name then
    retNone (warnEff "add_model_params: model_name should be a string")
  else if ¬ sklearnAvail then
    retNone (warnEff "add_model_params: sklearn models only")
  else if ¬ isBase then
    retNone (warnEff "add_model_params: model is not supported")
  else if ¬ tracking then
    retNone noEff
  else
    add_multiple_params tracking
      (.dict (getParams.map (fun kv => (prefixKey model_name kv.1, kv.2))))

/-- The observable lifecycle actions of a tracked process:
`create_experiment` is the bootstrap REST call; the two `start` actions
are `web_socket.start()` and `tracker_thread.start()`; `enqueue` is
`event_queue.put`; `registerAtexit` is `atexit.register(self._on_end)`;
`setEndTime` is the assignment to `self._experiment_end`;
`stopTrackerThread` is `self.tracker_thread.stop()` (which, modelled
from the spec, drains the queue and closes both transports before
returning — `tracker_thread.py` is not among the sources);
`runSklearnLoader` is the external auto-log scraper. -/
inductive TrAction where
  | createExperiment
  | startWebSocket
  | startTrackerThread
  | enqueue (e : Event)
  | runSklearnLoader
  | registerAtexit
  | setEndTime
  | stopTrackerThread

/-- The EXPERIMENT_START event put by `_initialize`. -/
def startEvent (start_time : String) : Event :=
  ⟨.EXPERIMENT_START, .str start_time, Option.none⟩

/-- The CODE_FILE event put by `_initialize`. -/
def codeFileEvent (file expId : String) : Event :=
  ⟨.CODE_FILE, .dict [("filename", .str file), ("experiment_id", .str expId)], Option.none⟩

/-- The EXPERIMENT_END event put by `_on_end`. -/
def endEvent (end_time : String) : Event :=
  ⟨.EXPERIMENT_END, .str end_time, Option.none⟩

/-- The action trace of `Tracker._initialize`: the `RestConnection` is
constructed (the bulk transport holds no connection and issues no
request at construction), then `tracking=False` returns at once; the
bootstrap call `create_experiment` runs next, and a failed bootstrap
returns at once; on success the websocket and tracker threads are
started, EXPERIMENT_START and CODE_FILE are enqueued, the sklearn
loader runs when `auto_log` is set, and `_on_end` is registered with
`atexit`. -/
def initialize_actions (tracking created auto_log : Bool)
    (start_time file expId : String) : List TrAction :=
  if ¬ tracking then []
  else if ¬ created then [.createExperiment]
  else
    [.createExperiment, .startWebSocket, .startTrackerThread,
     .enqueue (startEvent start_time), .enqueue (codeFileEvent file expId)] ++
    (if auto_log then [.runSklearnLoader] else []) ++
    [.registerAtexit]

/-- The action trace of `Tracker._on_end`: set `self._experiment_end`,
enqueue EXPERIMENT_END, stop the tracker thread. -/
def on_end_actions (end_time : String) : List TrAction :=
  [.setEndTime, .enqueue (endEvent end_time), .stopTrackerThread]

/-- Whether `_initialize` registered the exit hook. -/
def atexitRegistered (tracking created : Bool) : Bool := tracking && created

/-- The full action trace of a tracked process: `_initialize` at
construction time, then — per the `atexit` contract — each registered
callback is invoked exactly once at interpreter exit. -/
def process_trace (tracking created auto_log : Bool)
    (start_time file expId end_time : String) : List TrAction :=
  initialize_actions tracking created auto_log start_time file expId ++
  (if atexitRegistered tracking created then on_end_actions end_time else [])

/-- The events a trace puts on the event queue, in order. -/
def enqueued (tr : List TrAction) : List Event :=
  tr.filterMap (fun a => match a with | .enqueue e => some e | _ => Option.none)

/-- Count the actions of a trace satisfying a boolean test. -/
def actCount (p : TrAction → Bool) (tr : List TrAction) : Nat := (tr.filter p).length

/-- Test for the `setEndTime` action. -/
def isSetEnd : TrAction → Bool
  | .setEndTime => true
  | _ => false

/-- Test for the `registerAtexit` action. -/
def isRegister : TrAction → Bool
  | .registerAtexit => true
  | _ => false

/-- Test for the `startWebSocket` action. -/
def isStartWS : TrAction → Bool
  | .startWebSocket => true
  | _ => false

/-- Test for the `startTrackerThread` action. -/
def isStartTT : TrAction → Bool
  | .startTrackerThread => true
  | _ => false

/-- Test for the `stopTrackerThread` action. -/
def isStopTT : TrAction → Bool
  | .stopTrackerThread => true
  | _ => false

/-- Test for the bootstrap `create_experiment` call. -/
def isCreateExp : TrAction → Bool
  | .createExperiment => true
  | _ => false

/-- Modelled from the spec: the event queue and its single consumer.
`event_queue.py` and `tracker_thread.py` are not among the sources; the
spec describes a strict-FIFO multi-producer queue whose events carry a
`sequence_number` assigned monotonically at enqueue time under the
mutual exclusion of the queue, drained by the one dispatcher thread
which forwards each event to `send` of the Streaming Transport in
dequeue order.  `nextSeq` is the next sequence number, `buffer` the
pending queue contents, `sent` the events already observed by `send`,
all carrying their sequence numbers. -/
structure QState where
  nextSeq : Nat
  buffer : List (Nat × Event)
  sent : List (Nat × Event)

/-- Modelled from the spec: one atomic step of the delivery subsystem —
either some producer enqueues an event (it receives the next sequence
number and goes to the back of the queue), or the dispatcher dequeues
the front event and hands it to `send` of the Streaming Transport. -/
inductive QStep : QState → QState → Prop where
  | enqueue (s : QState) (e : Event) :
      QStep s ⟨s.nextSeq + 1, s.buffer ++ [(s.nextSeq, e)], s.sent⟩
  | dispatch (s : QState) (x : Nat × Event) (rest : List (Nat × Event)) :
      s.buffer = x :: rest →
      QStep s ⟨s.nextSeq, rest, s.sent ++ [x]⟩

/-- States of the delivery subsystem reachable from the empty start
state by interleaved producer/dispatcher steps. -/
inductive QReachable : QState → Prop where
  | init : QReachable ⟨0, [], []⟩
  | step {s t : QState} : QReachable s → QStep s t → QReachable t

/-- A trivial instantiation of the serialization collaborators, used to
exercise the round-trip theorem on a concrete object. -/
def pickleLibId : PickleLib :=
  ⟨fun _ => [0], fun _ => .int 7, fun _ b => b, fun _ b => b, fun _ => 0⟩

/-- A concrete well-formed UUID4 string. -/
def uuidSample : String := "a3b44c2e-0b1d-4c8e-9f2a-6d5e4b3c2a1f"

/-- A concrete event used to exercise the queue state machine. -/
def qSampleEvent : Event := ⟨.MODEL_PARAM, .dict [("lr", .float (1 : Rat))], Option.none⟩

/-- The delivery state after enqueuing `qSampleEvent` and dispatching it. -/
def qSampleState : QState := ⟨1, [], [(0, qSampleEvent)]⟩

theorem Effects.append_events (a b : Effects) :
    (a ++ b).events = a.events ++ b.events := rfl

theorem Effects.append_requests (a b : Effects) :
    (a ++ b).requests = a.requests ++ b.requests := rfl

theorem Effects.append_warnings (a b : Effects) :
    (a ++ b).warnings = a.warnings ++ b.warnings := rfl

theorem effConcat_events (l : List Effects) :
    (effConcat l).events = (l.map Effects.events).flatten := by
  induction l with
  | nil => rfl
  | cons a t ih =>
    show (a ++ effConcat t).events = _
    rw [Effects.append_events, ih]
    simp

theorem qreach_seq_range {s : QState} (h : QReachable s) :
    (s.sent ++ s.buffer).map Prod.fst = List.range s.nextSeq := by
  induction h with
  | init => rfl
  | step _ hst ih =>
    cases hst with
    | enqueue e =>
      simp only [List.map_append] at ih ⊢
      rw [List.range_succ, ← ih]
      simp
    | dispatch x rest hbuf =>
      simp only [List.map_append] at ih ⊢
      rw [← ih, hbuf]
      simp

/-- Claim C1: in every reachable state of the delivery subsystem, the
events already observed by `send` of the Streaming Transport followed by
the still-pending queue carry exactly the sequence numbers `0, 1, ...`
in enqueue order; consequently the sent sequence is a prefix of the
enqueue order and the sequence numbers arrive in (strictly, hence
non-decreasing) increasing order. -/
theorem c1_send_order_matches_enqueue_order {s : QState} (h : QReachable s) :
    (s.sent ++ s.buffer).map Prod.fst = List.range s.nextSeq ∧
    List.IsPrefix (s.sent.map Prod.fst) (List.range s.nextSeq) ∧
    (s.sent.map Prod.fst).Pairwise (· ≤ ·) := by
  have hinv := qreach_seq_range h
  have hpre : List.IsPrefix (s.sent.map Prod.fst) (List.range s.nextSeq) := by
    refine ⟨s.buffer.map Prod.fst, ?_⟩
    rw [← List.map_append, hinv]
  refine ⟨hinv, hpre, ?_⟩
  exact ((List.pairwise_lt_range s.nextSeq).sublist hpre.sublist).imp le_of_lt

theorem c1_send_order_matches_enqueue_order_witness :
    (qSampleState.sent ++ qSampleState.buffer).map Prod.fst =
      List.range qSampleState.nextSeq ∧
    List.IsPrefix (qSampleState.sent.map Prod.fst) (List.range qSampleState.nextSeq) ∧
    (qSampleState.sent.map Prod.fst).Pairwise (· ≤ ·) :=
  c1_send_order_matches_enqueue_order
    (QReachable.step (QReachable.step QReachable.init (QStep.enqueue _ qSampleEvent))
      (QStep.dispatch _ (0, qSampleEvent) [] rfl))

/-- Claim C2 (refuted by the code): `pull_params` builds its URL by
concatenating `experiment_id` onto a string literal before any check
runs, so calling it with the integer `3` raises `TypeError` into the
instrumented program instead of logging a warning and returning; the
`isinstance` guard in the source is unreachable for non-string ids. -/
theorem c2_pull_params_raises_typeerror :
    pull_params true (fun _ => ⟨200, "", []⟩) (fun _ => .ok .none) (.int 3) =
      (noEff, .error .typeError) := rfl

/-- Claim C3 (refuted by the code): when the service answers a
pull-back `pull_custom_object` call with status 400, the source logs
but does not return; it goes on to `zlib.decompress` the 400 response
body, so the caller gets a `zlib.error` exception (or the decoded error
body) — never the explicit `None` the claim requires. -/
theorem c3_pull_custom_object_400_not_none :
    (pull_custom_object true "p1" (fun _ => ⟨400, "", [1, 2, 3]⟩)
        (fun _ => .error .zlibError) (fun _ => .ok (.int 7))
        (.str uuidSample)).2 = .error .zlibError := rfl

/-- Claim C4: over the whole process trace the `atexit` callback runs
exactly as many times as it was registered (and it is registered at
most once), `end_time` is assigned at most once, and when the callback
runs, the trace ends with `setEndTime`, the EXPERIMENT_END enqueue and
only then `tracker_thread.stop()`, with no stop and no end-time
assignment anywhere earlier. -/
theorem c4_exit_hook_runs_once (tracking created auto_log : Bool)
    (st f eid et : String) :
    actCount isSetEnd (process_trace tracking created auto_log st f eid et) ≤ 1 ∧
    actCount isSetEnd (process_trace tracking created auto_log st f eid et) =
      actCount isRegister (process_trace tracking created auto_log st f eid et) ∧
    actCount isRegister (process_trace tracking created auto_log st f eid et) ≤ 1 ∧
    (atexitRegistered tracking created = true →
      ∃ pre, process_trace tracking created auto_log st f eid et =
          pre ++ [.setEndTime, .enqueue (endEvent et), .stopTrackerThread] ∧
        actCount isSetEnd pre = 0 ∧ actCount isStopTT pre = 0) := by
  refine ⟨?_, ?_, ?_, ?_⟩
  · cases tracking <;> cases created <;> cases auto_log <;>
      simp [process_trace, initialize_actions, on_end_actions, atexitRegistered,
            actCount, isSetEnd, isRegister, isStopTT]
  · cases tracking <;> cases created <;> cases auto_log <;>
      simp [process_trace, initialize_actions, on_end_actions, atexitRegistered,
            actCount, isSetEnd, isRegister, isStopTT]
  · cases tracking <;> cases created <;> cases auto_log <;>
      simp [process_trace, initialize_actions, on_end_actions, atexitRegistered,
            actCount, isSetEnd, isRegister, isStopTT]
  · intro h
    cases tracking <;> cases created <;> simp [atexitRegistered] at h
    refine ⟨initialize_actions true true auto_log st f eid, ?_, ?_, ?_⟩
    · simp [process_trace, atexitRegistered, on_end_actions]
    · cases auto_log <;> simp [initialize_actions, actCount, isSetEnd]
    · cases auto_log <;> simp [initialize_actions, actCount, isStopTT]

theorem c4_exit_hook_runs_once_witness :
    actCount isSetEnd (process_trace true true false "t0" "f.py" "e1" "t1") ≤ 1 ∧
    (∃ pre, process_trace true true false "t0" "f.py" "e1" "t1" =
        pre ++ [.setEndTime, .enqueue (endEvent "t1"), .stopTrackerThread] ∧
      actCount isSetEnd pre = 0 ∧ actCount isStopTT pre = 0) :=
  ⟨(c4_exit_hook_runs_once true true false "t0" "f.py" "e1" "t1").1,
   (c4_exit_hook_runs_once true true false "t0" "f.py" "e1" "t1").2.2.2 rfl⟩

/-- Claim C5: a malformed argument — a non-string or empty
param/metric/tag name, a non-numeric metric value or seconds count, a
missing or non-numeric epoch for `add_duration_at_epoch` — never puts
an event on the queue: the call logs exactly one warning and returns
`None`. -/
theorem c5_malformed_input_rejected (tracking : Bool)
    (pname pv mname mv mep tag sec ep : PyVal) :
    ((isStr pname = false ∨ pname = .str "") →
      (add_param tracking pname pv).1.events = [] ∧
      (add_param tracking pname pv).1.warnings.length = 1 ∧
      (add_param tracking pname pv).2 = .ok .none) ∧
    ((isStr mname = false ∨ mname = .str "" ∨ isNum mv = false) →
      (add_metric tracking mname mv mep).1.events = [] ∧
      (add_metric tracking mname mv mep).1.warnings.length = 1 ∧
      (add_metric tracking mname mv mep).2 = .ok .none) ∧
    ((isStr tag = false ∨ tag = .str "" ∨ isNum sec = false ∨
        ep = .none ∨ isNum ep = false) →
      (add_duration_at_epoch tracking tag sec ep).1.events = [] ∧
      (add_duration_at_epoch tracking tag sec ep).1.warnings.length = 1 ∧
      (add_duration_at_epoch tracking tag sec ep).2 = .ok .none) := by
  refine ⟨?_, ?_, ?_⟩
  · intro h
    rcases h with h | h
    · simp [add_param, h, retNone, warnEff]
    · subst h
      simp [add_param, isStr, pyStrGet, retNone, warnEff]
  · intro h
    rcases h with h | h | h
    · simp [add_metric, h, retNone, warnEff]
    · subst h
      simp [add_metric, isStr, pyStrGet, retNone, warnEff]
    · unfold add_metric
      split_ifs <;> simp_all [retNone, warnEff, noEff]
  · intro h
    rcases h with h | h | h | h
    · simp [add_duration_at_epoch, h, retNone, warnEff]
    · subst h
      simp [add_duration_at_epoch, isStr, pyStrGet, retNone, warnEff]
    · unfold add_duration_at_epoch
      split_ifs <;> simp_all [retNone, warnEff, noEff]
    · rcases h with h | h
      · subst h
        unfold add_duration_at_epoch
        split_ifs <;> simp_all [retNone, warnEff, noEff, isNone]
      · unfold add_duration_at_epoch
        split_ifs <;> simp_all [retNone, warnEff, noEff]

theorem c5_malformed_input_rejected_witness :
    ((add_param true (.int 1) (.str "x")).1.events = [] ∧
     (add_param true (.int 1) (.str "x")).1.warnings.length = 1 ∧
     (add_param true (.int 1) (.str "x")).2 = .ok .none) ∧
    ((add_metric true (.str "acc") (.str "nan") .none).1.events = [] ∧
     (add_metric true (.str "acc") (.str "nan") .none).1.warnings.length = 1 ∧
     (add_metric true (.str "acc") (.str "nan") .none).2 = .ok .none) ∧
    ((add_duration_at_epoch true (.str "t") (.int 3) .none).1.events = [] ∧
     (add_duration_at_epoch true (.str "t") (.int 3) .none).1.warnings.length = 1 ∧
     (add_duration_at_epoch true (.str "t") (.int 3) .none).2 = .ok .none) :=
  ⟨(c5_malformed_input_rejected true (.int 1) (.str "x") (.str "acc") (.str "nan")
      .none (.str "t") (.int 3) .none).1 (Or.inl rfl),
   (c5_malformed_input_rejected true (.int 1) (.str "x") (.str "acc") (.str "nan")
      .none (.str "t") (.int 3) .none).2.1 (Or.inr (Or.inr rfl)),
   (c5_malformed_input_rejected true (.int 1) (.str "x") (.str "acc") (.str "nan")
      .none (.str "t") (.int 3) .none).2.2 (Or.inr (Or.inr (Or.inr (Or.inl rfl))))⟩

/-- Claim C6: the websocket thread and the tracker (dispatcher) thread
are each started exactly once — and only when tracking is on and the
bootstrap `create_experiment` succeeded — with every start occurring
during `_initialize`; the stop happens exactly once, at process exit;
and when the bootstrap fails, `_initialize` returns having issued only
the bootstrap call, started no thread and enqueued no event. -/
theorem c6_threads_started_stopped_once (tracking created auto_log : Bool)
    (st f eid et : String) :
    actCount isStartWS (process_trace tracking created auto_log st f eid et) =
      (if tracking && created then 1 else 0) ∧
    actCount isStartTT (process_trace tracking created auto_log st f eid et) =
      (if tracking && created then 1 else 0) ∧
    actCount isStopTT (process_trace tracking created auto_log st f eid et) =
      (if tracking && created then 1 else 0) ∧
    actCount isStartWS (initialize_actions tracking created auto_log st f eid) =
      actCount isStartWS (process_trace tracking created auto_log st f eid et) ∧
    actCount isStartTT (initialize_actions tracking created auto_log st f eid) =
      actCount isStartTT (process_trace tracking created auto_log st f eid et) ∧
    (tracking = true → created = false →
      process_trace tracking created auto_log st f eid et = [.createExperiment] ∧
      enqueued (process_trace tracking created auto_log st f eid et) = []) := by
  refine ⟨?_, ?_, ?_, ?_, ?_, ?_⟩ <;>
    cases tracking <;> cases created <;> cases auto_log <;>
      simp [process_trace, initialize_actions, on_end_actions, atexitRegistered,
            actCount, isStartWS, isStartTT, isStopTT, enqueued]

theorem c6_threads_started_stopped_once_witness :
    actCount isStartWS (process_trace true false false "t0" "f.py" "e1" "t1") =
      (if true && false then 1 else 0) ∧
    (process_trace true false false "t0" "f.py" "e1" "t1" = [.createExperiment] ∧
     enqueued (process_trace true false false "t0" "f.py" "e1" "t1") = []) :=
  ⟨(c6_threads_started_stopped_once true false false "t0" "f.py" "e1" "t1").1,
   (c6_threads_started_stopped_once true false false "t0" "f.py" "e1" "t1").2.2.2.2.2
     rfl rfl⟩

theorem Effects.append_infos (a b : Effects) :
    (a ++ b).infos = a.infos ++ b.infos := rfl

/-- Claim C7: each bulk upload operation — `add_custom_object`,
`add_image`, `add_custom_plot` — issues exactly one HTTP request per
(valid) call, whatever status the service answers (so a failing call is
never retried), logs, and returns `None` normally even on a
non-201 status. -/
theorem c7_bulk_upload_single_request (pid : String) (L : PickleLib)
    (post : Request → Nat) (s : String) (obj : PyVal) (fp : String) :
    ((add_custom_object true true pid L post (.str s) obj).1.requests.length = 1 ∧
     (add_custom_object true true pid L post (.str s) obj).1.infos ≠ [] ∧
     (add_custom_object true true pid L post (.str s) obj).2 = .ok .none) ∧
    ((add_image true true pid (fun _ => true) post fp .none .none .none).1.requests.length = 1 ∧
     (add_image true true pid (fun _ => true) post fp .none .none .none).1.infos ≠ [] ∧
     (add_image true true pid (fun _ => true) post fp .none .none .none).2 = .ok .none) ∧
    ((add_custom_plot true true pid post (.str s) (some ⟨true⟩)).1.requests.length = 1 ∧
     (add_custom_plot true true pid post (.str s) (some ⟨true⟩)).1.infos ≠ [] ∧
     (add_custom_plot true true pid post (.str s) (some ⟨true⟩)).2 = .ok .none) := by
  refine ⟨?_, ?_, ?_⟩
  · unfold add_custom_object
    split_ifs <;>
      simp_all [isStr, retNone, noEff, infoEff, warnEff,
                Effects.append_requests, Effects.append_infos] <;>
      (try (split <;>
        simp_all [isStr, retNone, noEff, infoEff, warnEff,
                  Effects.append_requests, Effects.append_infos]))
  · unfold add_image
    split_ifs <;>
      simp_all [truthy, isDict, isStr, isInt, retNone, noEff, infoEff, warnEff,
                Effects.append_requests, Effects.append_infos] <;>
      (try (split <;>
        simp_all [truthy, isDict, isStr, isInt, retNone, noEff, infoEff, warnEff,
                  Effects.append_requests, Effects.append_infos]))
  · unfold add_custom_plot
    split_ifs <;>
      simp_all [isStr, retNone, noEff, infoEff, warnEff,
                Effects.append_requests, Effects.append_infos] <;>
      (try (split <;>
        simp_all [isStr, retNone, noEff, infoEff, warnEff,
                  Effects.append_requests, Effects.append_infos]))

theorem add_param_false_events (n v : PyVal) :
    (add_param false n v).1.events = [] := by
  unfold add_param
  split_ifs <;> simp_all [retNone, warnEff, noEff]

theorem add_param_event_type {tracking : Bool} {n v : PyVal} {e : Event}
    (h : e ∈ (add_param tracking n v).1.events) : e.type = .MODEL_PARAM := by
  unfold add_param at h
  split_ifs at h <;> simp [retNone, warnEff, noEff, eventEff] at h
  subst h
  rfl

theorem add_multiple_params_true_events (l : List (String × PyVal)) :
    (add_multiple_params true (.dict l)).1.events =
      (l.map (fun kv => (add_param true (.str kv.1) kv.2).1.events)).flatten := by
  unfold add_multiple_params
  rw [if_neg (by simp [isDict]), if_neg (by simp)]
  show (effConcat _).events = _
  rw [effConcat_events, List.map_map]
  rfl

/-- Claim C8: for a supported (sklearn `BaseEstimator`) model object,
`add_model_params` puts on the queue exactly the events that calling
`add_param` on each extracted parameter would put there — ordinary
MODEL_PARAM events — with each key prefixed as `model_name__key` when a
(truthy) `model_name` is given and left unchanged otherwise. -/
theorem c8_model_params_equals_manual_params (tracking : Bool)
    (ps : List (String × PyVal)) (mn : PyVal)
    (hmn : mn = .none ∨ ∃ s, mn = .str s) :
    (add_model_params tracking true true ps mn).1.events =
      (ps.map (fun kv =>
        (add_param tracking (.str (prefixKey mn kv.1)) kv.2).1.events)).flatten ∧
    ∀ e ∈ (add_model_params tracking true true ps mn).1.events,
      e.type = .MODEL_PARAM := by
  have hguard : (truthy mn && ! isStr mn) = false := by
    rcases hmn with h | ⟨s, h⟩ <;> subst h <;> simp [truthy, isStr]
  have main : (add_model_params tracking true true ps mn).1.events =
      (ps.map (fun kv =>
        (add_param tracking (.str (prefixKey mn kv.1)) kv.2).1.events)).flatten := by
    unfold add_model_params
    rw [if_neg (by simp [hguard])]
    cases tracking with
    | false =>
      rw [if_neg (by simp), if_neg (by simp), if_pos (by simp)]
      show (noEff.events : List Event) = _
      simp only [noEff]
      symm
      rw [List.flatten_eq_nil_iff]
      intro x hx
      rw [List.mem_map] at hx
      obtain ⟨kv, _, hkv⟩ := hx
      rw [← hkv]
      exact add_param_false_events _ _
    | true =>
      rw [if_neg (by simp), if_neg (by simp), if_neg (by simp)]
      rw [add_multiple_params_true_events]
      rw [List.map_map]
      rfl
  refine ⟨main, ?_⟩
  intro e he
  rw [main] at he
  rw [List.mem_flatten] at he
  obtain ⟨x, hx, hex⟩ := he
  rw [List.mem_map] at hx
  obtain ⟨kv, _, hkv⟩ := hx
  rw [← hkv] at hex
  exact add_param_event_type hex

theorem c8_model_params_equals_manual_params_witness :
    (add_model_params true true true [("a", .int 1)] (.str "m")).1.events =
      ([("a", PyVal.int 1)].map (fun kv =>
        (add_param true (.str (prefixKey (.str "m") kv.1)) kv.2).1.events)).flatten ∧
    ∀ e ∈ (add_model_params true true true [("a", .int 1)] (.str "m")).1.events,
      e.type = .MODEL_PARAM :=
  c8_model_params_equals_manual_params true [("a", .int 1)] (.str "m")
    (Or.inr ⟨"m", rfl⟩)

theorem filterMetricDict_eff (l : List (String × PyVal)) :
    (filterMetricDict l).1.events = [] ∧ (filterMetricDict l).1.requests = [] := by
  induction l with
  | nil => exact ⟨rfl, rfl⟩
  | cons kv t ih =>
    unfold filterMetricDict
    split_ifs <;> simp_all [warnEff, noEff]

set_option maxHeartbeats 2000000 in
/-- Claim C9: with `tracking=False` every logging or upload operation
leaves the event queue unchanged and issues no HTTP request, and
`_initialize` returns (after constructing the request/response helper,
which holds no connection) without the bootstrap call, without starting
any thread and without enqueuing anything. -/
theorem c9_tracking_off_no_effect (rest_set : Bool) (pid : String)
    (L : PickleLib) (post : Request → Nat) (get : String → Response)
    (jloads : String → Except PyExc PyVal) (isfile : String → Bool)
    (name v mname mv mep tag sec ep did obj cfn iep md eid : PyVal)
    (fp : String) (created auto_log : Bool) (st f eidq : String) :
    (add_param false name v).1.events = [] ∧
    (add_param false name v).1.requests = [] ∧
    (add_metric false mname mv mep).1.events = [] ∧
    (add_metric false mname mv mep).1.requests = [] ∧
    (add_duration_at_epoch false tag sec ep).1.events = [] ∧
    (add_duration_at_epoch false tag sec ep).1.requests = [] ∧
    (add_dataset_id false did).1.events = [] ∧
    (add_dataset_id false did).1.requests = [] ∧
    (add_custom_object false rest_set pid L post name obj).1.events = [] ∧
    (add_custom_object false rest_set pid L post name obj).1.requests = [] ∧
    (add_image false rest_set pid isfile post fp md cfn iep).1.events = [] ∧
    (add_image false rest_set pid isfile post fp md cfn iep).1.requests = [] ∧
    (pull_params false get jloads eid).1.events = [] ∧
    (pull_params false get jloads eid).1.requests = [] ∧
    initialize_actions false created auto_log st f eidq = [] := by
  refine ⟨?_, ?_, ?_, ?_, ?_, ?_, ?_, ?_, ?_, ?_, ?_, ?_, ?_, ?_, ?_⟩
  · exact add_param_false_events name v
  · unfold add_param
    split_ifs <;> simp [retNone, warnEff, noEff, eventEff]
  · unfold add_metric
    split_ifs <;> simp_all [retNone, warnEff, noEff, eventEff]
  · unfold add_metric
    split_ifs <;> simp_all [retNone, warnEff, noEff, eventEff]
  · unfold add_duration_at_epoch
    split_ifs <;> simp_all [retNone, warnEff, noEff, eventEff]
  · unfold add_duration_at_epoch
    split_ifs <;> simp_all [retNone, warnEff, noEff, eventEff]
  · unfold add_dataset_id
    split_ifs <;> simp_all [retNone, warnEff, noEff, eventEff]
  · unfold add_dataset_id
    split_ifs <;> simp_all [retNone, warnEff, noEff, eventEff]
  · unfold add_custom_object
    split_ifs <;> simp_all [retNone, warnEff, noEff, infoEff]
  · unfold add_custom_object
    split_ifs <;> simp_all [retNone, warnEff, noEff, infoEff]
  · unfold add_image
    have hm := filterMetricDict_eff (dictItems md)
    split_ifs <;>
      simp_all [retNone, warnEff, noEff, infoEff, Effects.append_events] <;>
      (try (split <;> simp_all [Effects.append_events, warnEff, noEff, infoEff]))
  · unfold add_image
    have hm := filterMetricDict_eff (dictItems md)
    split_ifs <;>
      simp_all [retNone, warnEff, noEff, infoEff, Effects.append_requests] <;>
      (try (split <;> simp_all [Effects.append_requests, warnEff, noEff, infoEff]))
  · unfold pull_params
    cases eid <;> simp [retNone, noEff]
  · unfold pull_params
    cases eid <;> simp [retNone, noEff]
  · simp [initialize_actions]

/-- Claim C10: under the library contracts — gzip (wbits 31)
decompression inverts gzip (wbits 31) compression, and `pickle.loads`
inverts `cloudpickle.dumps` on a picklable object — the decoding used
by `pull_custom_object` recovers exactly the object that
`__get_compressed_picke` encoded for `add_custom_object`: both sides
use the same wbits-31 mode, so the encoding round-trips. -/
theorem c10_compressed_pickle_roundtrip (L : PickleLib) (obj : PyVal)
    (hzlib : ∀ b, L.decompress 31 (L.compress 31 b) = b)
    (hpickle : L.loads (L.dumps obj) = obj) :
    pull_decode L (get_compressed_picke L obj).1 = obj := by
  unfold pull_decode get_compressed_picke
  rw [hzlib, hpickle]

theorem c10_compressed_pickle_roundtrip_witness :
    pull_decode pickleLibId (get_compressed_picke pickleLibId (.int 7)).1 = .int 7 :=
  c10_compressed_pickle_roundtrip pickleLibId (.int 7) (fun _ => rfl) rfl
